import Mathlib

/-!
Verification development for the `flow` repository: an Azure DevOps
pull-request review system.  The definitions below are a shallow embedding
of the JavaScript sources:

* `src/functions/diff-analyzer.js` — diff parsing, pattern matching, risk
  scoring, suggestion generation;
* `src/functions/azure-devops-client.js` and
  `src/functions/error-handler.js` — API client operations, retry loop,
  required-field validation;
* `src/functions/report-formatter.js` — report rendering in four formats;
* `src/unnamed/part_003` and
  `src/azure-devops-pr-reviewer/functions/diff-analyzer.js` — the two
  `summarizeChanges` variants.

JavaScript regexes are embedded as executable character-list predicates
with the same matching semantics on the inputs the analyzer feeds them
(single diff lines, which contain no newline; `\s` is modelled by the
ASCII whitespace characters).  JavaScript `Math.round` is modelled as
`⌊x + 1/2⌋` (round half toward positive infinity), and falsy tests on
strings/numbers (`!x`, `x || d`) are modelled explicitly.
-/

namespace Flow

/-! ## Character and substring utilities (JS regex semantics helpers) -/

/-- ASCII whitespace, the fragment of JS `\s` relevant to analyzed lines. -/
def isJsWs (c : Char) : Bool :=
  c = ' ' || c = '\t' || c = '\n' || c = '\r' || c = '\x0b' || c = '\x0c'

/-- JS `\d`. -/
def isDigitCh (c : Char) : Bool := '0' ≤ c && c ≤ '9'

/-- The character class `[a-zA-Z_]` used in the magic-number lookarounds. -/
def isAlphaUnd (c : Char) : Bool :=
  ('a' ≤ c && c ≤ 'z') || ('A' ≤ c && c ≤ 'Z') || c = '_'

/-- JS word character `\w` / `[A-Za-z0-9_]` (boundary `\b` tests). -/
def isWordCh (c : Char) : Bool := isAlphaUnd c || isDigitCh c

/-- Unanchored substring test: does `needle` occur inside the haystack? -/
def listContainsSub (needle : List Char) : List Char → Bool
  | [] => needle.isEmpty
  | c :: rest => needle.isPrefixOf (c :: rest) || listContainsSub needle rest

/-- The character sequence of a string, lower-cased (JS `/.../i` matching
is modelled by lower-casing both sides). -/
def jsToLower (s : String) : List Char := s.data.map Char.toLower

/-- Substring test on strings, after lower-casing (a JS `/.../i` literal test). -/
def icontains (hay needle : String) : Bool :=
  listContainsSub (jsToLower needle) (jsToLower hay)

/-- JS `String.prototype.trim`, on the ASCII whitespace that can occur in
analyzed lines. -/
def trimChars (l : List Char) : List Char :=
  ((l.dropWhile isJsWs).reverse.dropWhile isJsWs).reverse

/-! ## Diff analyzer data model (`src/functions/diff-analyzer.js`) -/

/-- A diff line as produced by `parseDiffLines`: `{content, lineNumber}`. -/
structure DiffLine where
  content : String
  lineNumber : Nat
deriving Repr, DecidableEq

/-- The record returned by `parseDiffLines`. -/
structure ParsedDiff where
  added : List DiffLine
  removed : List DiffLine
  context : List DiffLine
deriving Repr, DecidableEq

/-- The `fileInfo` argument of the analyzer; only `path` is read. -/
structure FileInfo where
  path : String
deriving Repr, DecidableEq

/-- An issue pushed by `analyzeLineForSecurity/Performance/Quality`. -/
structure Issue where
  type : String
  severity : String
  description : String
  line : Nat
  content : String
  file : String
  suggestion : String
deriving Repr, DecidableEq

/-- A suggestion object.  The source pushes two shapes of object literal:
`generateSuggestions` pushes `{type, priority, description, action}` and
`analyzeRemovedLine` pushes `{type, severity, description, file,
suggestion}`; absent keys are `none`. -/
structure Sugg where
  type : String
  priority : Option String
  severity : Option String
  description : String
  action : Option String
  file : Option String
  suggestion : Option String
deriving Repr, DecidableEq

/-- The analysis record built by `analyzeDiff`. -/
structure Analysis where
  security : List Issue
  performance : List Issue
  quality : List Issue
  suggestions : List Sugg
  riskScore : ℤ
deriving Repr, DecidableEq

/-- `extractLineNumber` — the source is an explicit placeholder returning 0. -/
def extractLineNumber (_line : String) : Nat := 0

/-- JS `split('\n')`: the empty string yields `[""]`, a trailing newline
yields a trailing empty line. -/
def splitOnNl : List Char → List (List Char)
  | [] => [[]]
  | c :: r =>
    if c = '\n' then [] :: splitOnNl r
    else
      match splitOnNl r with
      | [] => [[c]]
      | g :: gs => (c :: g) :: gs

/-- `parseDiffLines`: split on `'\n'`; `+`-lines (except `+++`) are added,
`-`-lines (except `---`) are removed, everything not starting with `@@` or
`diff` is context.  `startsWith`/`substring(1)` are expressed on the
character sequence. -/
def parseDiffLines (diffContent : String) : ParsedDiff :=
  (splitOnNl diffContent.data).foldl
    (fun acc line =>
      if "+".data.isPrefixOf line && !("+++".data.isPrefixOf line) then
        { acc with added := acc.added
            ++ [⟨String.mk (line.drop 1), extractLineNumber (String.mk line)⟩] }
      else if "-".data.isPrefixOf line && !("---".data.isPrefixOf line) then
        { acc with removed := acc.removed
            ++ [⟨String.mk (line.drop 1), extractLineNumber (String.mk line)⟩] }
      else if !("@@".data.isPrefixOf line) && !("diff".data.isPrefixOf line) then
        { acc with context := acc.context
            ++ [⟨String.mk line, extractLineNumber (String.mk line)⟩] }
      else acc)
    ⟨[], [], []⟩

/-! ## Embedded regex tests

Each JS regex literal of the analyzer is embedded as an executable
predicate with the regex's unanchored existence semantics.  `.` never
matches `'\n'`; classes like `[^}]` and `\s` do.  `/.../i` patterns
lower-case the haystack first. -/

/-- `∃` a `c` in the list with `p` holding after it (used for `.*c` tails
where everything before `c` is unconstrained for the inputs at hand). -/
def hasCharThenPred (c : Char) (p : List Char → Bool) : List Char → Bool
  | [] => false
  | x :: rest => (x = c && p rest) || hasCharThenPred c p rest

/-- Keyword alternation of the sql-injection rule. -/
def sqlKeywords : List (List Char) :=
  ["select", "insert", "update", "delete", "drop", "create", "alter"].map String.data

/-- After `keyword\s`, the rest of `/\s+.*\+.*\$/` on a newline-free line:
a `'+'` strictly later, then a literal `'$'` (the source writes `\$`,
an escaped dollar) strictly after it. -/
def sqlTailMatch (l : List Char) : Bool :=
  hasCharThenPred '+' (fun r => r.contains '$') l

/-- Scan for `/(?:select|...|alter)\s+.*\+.*\$/i` anywhere in the line. -/
def sqlInjectionScan : List Char → Bool
  | [] => false
  | c :: rest =>
    (sqlKeywords.any fun kw =>
      kw.isPrefixOf (c :: rest) &&
      (match (c :: rest).drop kw.length with
       | [] => false
       | w :: r2 => isJsWs w && sqlTailMatch r2))
    || sqlInjectionScan rest

/-- `sql_injection` rule test. -/
def sqlInjectionTest (s : String) : Bool := sqlInjectionScan (jsToLower s)

/-- Keyword alternation of the hardcoded-secret rule. -/
def secretKeywords : List (List Char) :=
  ["password", "secret", "key", "token", "api_key"].map String.data

/-- After a secret keyword: `\s*[=:]\s*["'][^"']{8,}["']` — skip spaces,
an `=` or `:`, skip spaces, a quote, at least 8 non-quote characters, and
a closing quote of either kind. -/
def secretTail (l : List Char) : Bool :=
  match l.dropWhile isJsWs with
  | c :: r =>
    (c = '=' || c = ':') &&
    (match r.dropWhile isJsWs with
     | q :: r2 =>
       (q = '"' || q = '\'') &&
       (let run := r2.takeWhile (fun d => !(d = '"' || d = '\''))
        8 ≤ run.length && run.length < r2.length)
     | [] => false)
  | [] => false

/-- Scan for the hardcoded-secret regex anywhere in the line. -/
def hardcodedSecretScan : List Char → Bool
  | [] => false
  | c :: rest =>
    (secretKeywords.any fun kw =>
      kw.isPrefixOf (c :: rest) && secretTail ((c :: rest).drop kw.length))
    || hardcodedSecretScan rest

/-- `hardcoded_secret` rule test. -/
def hardcodedSecretTest (s : String) : Bool := hardcodedSecretScan (jsToLower s)

/-- `xss_vulnerability`: `/innerHTML|outerHTML|document\.write|eval\(/i`. -/
def xssTest (s : String) : Bool :=
  icontains s "innerHTML" || icontains s "outerHTML"
  || icontains s "document.write" || icontains s "eval("

/-- `insecure_random`: `/Math\.random\(\)|Random\(\)/i`. -/
def insecureRandomTest (s : String) : Bool :=
  icontains s "Math.random()" || icontains s "Random()"

/-- `weak_crypto`: `/md5|sha1(?!256)|des(?!_ede3)/i` with its two
negative lookaheads. -/
def weakCryptoScan : List Char → Bool
  | [] => false
  | c :: rest =>
    "md5".data.isPrefixOf (c :: rest)
    || ("sha1".data.isPrefixOf (c :: rest)
        && !("256".data.isPrefixOf ((c :: rest).drop 4)))
    || ("des".data.isPrefixOf (c :: rest)
        && !("_ede3".data.isPrefixOf ((c :: rest).drop 3)))
    || weakCryptoScan rest

/-- `weak_crypto` rule test. -/
def weakCryptoTest (s : String) : Bool := weakCryptoScan (jsToLower s)

/-- Drop everything up to and including the next `'\n'` (`.*\n` is forced
to the first newline because `.` cannot cross one); `none` when no newline
remains. -/
def skipPastNewline (l : List Char) : Option (List Char) :=
  match l.dropWhile (fun c => c ≠ '\n') with
  | _ :: r => some r
  | [] => none

/-- Iterate `skipPastNewline` `n` times (the `(.*\n){n}` part of the
inefficient-loop body). -/
def skipNNewlines : Nat → List Char → Option (List Char)
  | 0, l => some l
  | n + 1, l =>
    match skipPastNewline l with
    | some r => skipNNewlines n r
    | none => none

/-- After the chunk `[^}]*\n` of the loop rule: `.*\n.*\n.*\n.*\n.*\}` —
four more forced newlines, then a `'}'` before the following newline. -/
def loopAfterChunk (l : List Char) : Bool :=
  match skipNNewlines 4 l with
  | some r => (r.takeWhile (fun c => c ≠ '\n')).contains '}'
  | none => false

/-- `[^}]*\n` then the rest of the loop body: choose any newline occurring
before the first `'}'`. -/
def loopChunk : List Char → Bool
  | [] => false
  | '}' :: _ => false
  | '\n' :: r => loopAfterChunk r || loopChunk r
  | _ :: r => loopChunk r

/-- After `for`: `\s*\([^)]*\)\s*\{` then the multi-line body. -/
def loopAfterFor (l : List Char) : Bool :=
  match l.dropWhile isJsWs with
  | '(' :: r =>
    let inside := r.takeWhile (fun c => c ≠ ')')
    inside.length < r.length &&
    (match (r.drop (inside.length + 1)).dropWhile isJsWs with
     | '{' :: r3 => loopChunk r3
     | _ => false)
  | _ => false

/-- `inefficient_loop`:
`/for\s*\([^)]*\)\s*\{[^}]*\n.*\n.*\n.*\n.*\n.*\}/` (case-sensitive). -/
def inefficientLoopScan : List Char → Bool
  | [] => false
  | c :: rest =>
    ("for".data.isPrefixOf (c :: rest) && loopAfterFor ((c :: rest).drop 3))
    || inefficientLoopScan rest

/-- `inefficient_loop` rule test. -/
def inefficientLoopTest (s : String) : Bool := inefficientLoopScan s.data

/-- Keyword alternation of the blocking-operation rule. -/
def blockingKeywords : List (List Char) :=
  ["sleep", "wait", "block", "synchronous", "sync"].map String.data

/-- `blocking_operation`: `/(?:sleep|wait|block|synchronous|sync)\s*\(/i`. -/
def blockingScan : List Char → Bool
  | [] => false
  | c :: rest =>
    (blockingKeywords.any fun kw =>
      kw.isPrefixOf (c :: rest) &&
      (match ((c :: rest).drop kw.length).dropWhile isJsWs with
       | '(' :: _ => true
       | _ => false))
    || blockingScan rest

/-- `blocking_operation` rule test. -/
def blockingTest (s : String) : Bool := blockingScan (jsToLower s)

/-- First alternative of the inefficient-query rule, after `select`:
`\s+\*\s+from`. -/
def selectStarTail (l : List Char) : Bool :=
  let ws := l.takeWhile isJsWs
  0 < ws.length &&
  (match l.drop ws.length with
   | '*' :: r =>
     let ws2 := r.takeWhile isJsWs
     0 < ws2.length && "from".data.isPrefixOf (r.drop ws2.length)
   | _ => false)

/-- Third alternative, after `nested`: `\s+loop`. -/
def nestedLoopTail (l : List Char) : Bool :=
  let ws := l.takeWhile isJsWs
  0 < ws.length && "loop".data.isPrefixOf (l.drop ws.length)

/-- `inefficient_query`: `/select\s+\*\s+from|n\+1|nested\s+loop/i`. -/
def inefficientQueryScan : List Char → Bool
  | [] => false
  | c :: rest =>
    ("select".data.isPrefixOf (c :: rest) && selectStarTail ((c :: rest).drop 6))
    || "n+1".data.isPrefixOf (c :: rest)
    || ("nested".data.isPrefixOf (c :: rest) && nestedLoopTail ((c :: rest).drop 6))
    || inefficientQueryScan rest

/-- `inefficient_query` rule test. -/
def inefficientQueryTest (s : String) : Bool := inefficientQueryScan (jsToLower s)

/-- `.*(?!clear)`: some (possibly empty) run of non-newline characters
after which `clear` does not start.  The empty string and a position at a
newline both satisfy the lookahead, so the test is satisfiable whenever
the preceding keyword occurs — the lookahead in the source is vacuous,
and this definition makes that inspectable. -/
def notClearAfterDotStar : List Char → Bool
  | [] => true
  | c :: r =>
    !("clear".data.isPrefixOf (c :: r)) || (c ≠ '\n' && notClearAfterDotStar r)

/-- `memory_leak`: `/addEventListener|setInterval|setTimeout.*(?!clear)/i`. -/
def memoryLeakScan : List Char → Bool
  | [] => false
  | c :: rest =>
    "addeventlistener".data.isPrefixOf (c :: rest)
    || "setinterval".data.isPrefixOf (c :: rest)
    || ("settimeout".data.isPrefixOf (c :: rest)
        && notClearAfterDotStar ((c :: rest).drop 10))
    || memoryLeakScan rest

/-- `memory_leak` rule test. -/
def memoryLeakTest (s : String) : Bool := memoryLeakScan (jsToLower s)

/-- Body of the long-method rule after `{`: `(?:[^}]*\n){20,}` — at least
20 newlines before the first `'}'`. -/
def longMethodBody (l : List Char) : Bool :=
  20 ≤ ((l.takeWhile (fun c => c ≠ '}')).filter (fun c => c = '\n')).length

/-- After `function`: `\s+\w+\s*\([^)]*\)\s*\{` then the body. -/
def longMethodAfterFn (l : List Char) : Bool :=
  let ws := l.takeWhile isJsWs
  0 < ws.length &&
  (let r := l.drop ws.length
   let word := r.takeWhile isWordCh
   0 < word.length &&
   (match (r.drop word.length).dropWhile isJsWs with
    | '(' :: r2 =>
      let inside := r2.takeWhile (fun c => c ≠ ')')
      inside.length < r2.length &&
      (match (r2.drop (inside.length + 1)).dropWhile isJsWs with
       | '{' :: r3 => longMethodBody r3
       | _ => false)
    | _ => false))

/-- `long_method`:
`/function\s+\w+\s*\([^)]*\)\s*\{(?:[^}]*\n){20,}/` (case-sensitive). -/
def longMethodScan : List Char → Bool
  | [] => false
  | c :: rest =>
    ("function".data.isPrefixOf (c :: rest)
      && longMethodAfterFn ((c :: rest).drop 8))
    || longMethodScan rest

/-- `long_method` rule test. -/
def longMethodTest (s : String) : Bool := longMethodScan s.data

/-- `magic_number`: `/(?<![a-zA-Z_])\d{2,}(?![a-zA-Z_])/` — two digits
whose preceding character (if any) is not a letter or underscore and
whose following character (if any) is not a letter or underscore; a digit
on either side is allowed by the lookarounds. -/
def magicScan (prev : Option Char) : List Char → Bool
  | c1 :: c2 :: rest =>
    ((match prev with | none => true | some p => !isAlphaUnd p)
      && isDigitCh c1 && isDigitCh c2
      && (match rest with | [] => true | c3 :: _ => !isAlphaUnd c3))
    || magicScan (some c1) (c2 :: rest)
  | _ => false

/-- `magic_number` rule test. -/
def magicNumberTest (s : String) : Bool := magicScan none s.data

/-- `duplicate_code`: `/(?:copy|duplicate|repeated)/i`. -/
def duplicateCodeTest (s : String) : Bool :=
  icontains s "copy" || icontains s "duplicate" || icontains s "repeated"

/-- Keyword alternation of the poor-naming rule. -/
def namingKeywords : List (List Char) :=
  ["temp", "tmp", "data", "info", "obj", "var", "item"].map String.data

/-- `poor_naming`: `/\b(?:temp|tmp|data|info|obj|var|item)\d*\b/i` — the
trailing `\b` after `\d*` forces the whole digit run to be consumed and
the next character (if any) to be a non-word character. -/
def poorNamingScan (prev : Option Char) : List Char → Bool
  | [] => false
  | c :: rest =>
    ((match prev with | none => true | some p => !isWordCh p)
      && namingKeywords.any (fun kw =>
        kw.isPrefixOf (c :: rest) &&
        (match ((c :: rest).drop kw.length).dropWhile isDigitCh with
         | [] => true
         | d :: _ => !isWordCh d)))
    || poorNamingScan (some c) rest

/-- `poor_naming` rule test. -/
def poorNamingTest (s : String) : Bool := poorNamingScan none (jsToLower s)

/-- `.*(?!catch|try)` — vacuous for the same reason as `notClearAfterDotStar`. -/
def notCatchTryAfterDotStar : List Char → Bool
  | [] => true
  | c :: r =>
    !("catch".data.isPrefixOf (c :: r) || "try".data.isPrefixOf (c :: r))
    || (c ≠ '\n' && notCatchTryAfterDotStar r)

/-- Keyword alternation of the missing-error-handling rule. -/
def handlingKeywords : List (List Char) :=
  ["fetch", "axios", "request", "query"].map String.data

/-- `missing_error_handling`: `/(?:fetch|axios|request|query).*(?!catch|try)/i`. -/
def missingErrorHandlingScan : List Char → Bool
  | [] => false
  | c :: rest =>
    (handlingKeywords.any fun kw =>
      kw.isPrefixOf (c :: rest)
        && notCatchTryAfterDotStar ((c :: rest).drop kw.length))
    || missingErrorHandlingScan rest

/-- `missing_error_handling` rule test. -/
def missingErrorHandlingTest (s : String) : Bool :=
  missingErrorHandlingScan (jsToLower s)

/-- `/error.handling/i` of `analyzeRemovedLine` — `error`, one non-newline
character, `handling`. -/
def errorDotHandlingScan : List Char → Bool
  | [] => false
  | c :: rest =>
    ("error".data.isPrefixOf (c :: rest) &&
      (match (c :: rest).drop 5 with
       | m :: r2 => m ≠ '\n' && "handling".data.isPrefixOf r2
       | [] => false))
    || errorDotHandlingScan rest

/-- `error.handling` removed-line test. -/
def errorDotHandlingTest (s : String) : Bool := errorDotHandlingScan (jsToLower s)

/-! ## Pattern tables and line analyzers -/

/-- One entry of the analyzer's rule tables; `test` embeds the stored
regex's `.test` method. -/
structure AnalyzerPattern where
  type : String
  test : String → Bool
  severity : String
  description : String
  suggestion : String

/-- `initializeSecurityPatterns`. -/
def initializeSecurityPatterns : List AnalyzerPattern :=
  [⟨"sql_injection", sqlInjectionTest, "critical",
    "Potential SQL injection vulnerability",
    "Use parameterized queries or prepared statements"⟩,
   ⟨"hardcoded_secret", hardcodedSecretTest, "high",
    "Hardcoded secret detected",
    "Move secrets to environment variables or secure configuration"⟩,
   ⟨"xss_vulnerability", xssTest, "high",
    "Potential XSS vulnerability",
    "Use safe DOM manipulation methods or sanitize input"⟩,
   ⟨"insecure_random", insecureRandomTest, "medium",
    "Insecure random number generation",
    "Use cryptographically secure random number generator"⟩,
   ⟨"weak_crypto", weakCryptoTest, "medium",
    "Weak cryptographic algorithm",
    "Use stronger cryptographic algorithms like SHA-256 or AES"⟩]

/-- `initializePerformancePatterns`. -/
def initializePerformancePatterns : List AnalyzerPattern :=
  [⟨"inefficient_loop", inefficientLoopTest, "medium",
    "Potentially inefficient loop detected",
    "Consider optimizing loop logic or using more efficient algorithms"⟩,
   ⟨"blocking_operation", blockingTest, "medium",
    "Blocking operation detected",
    "Consider using asynchronous alternatives"⟩,
   ⟨"inefficient_query", inefficientQueryTest, "medium",
    "Potentially inefficient database query",
    "Optimize query or add proper indexing"⟩,
   ⟨"memory_leak", memoryLeakTest, "high",
    "Potential memory leak",
    "Ensure proper cleanup of event listeners and timers"⟩]

/-- `initializeQualityPatterns`. -/
def initializeQualityPatterns : List AnalyzerPattern :=
  [⟨"long_method", longMethodTest, "low",
    "Long method detected",
    "Consider breaking down into smaller functions"⟩,
   ⟨"magic_number", magicNumberTest, "low",
    "Magic number detected",
    "Consider using named constants"⟩,
   ⟨"duplicate_code", duplicateCodeTest, "medium",
    "Potential code duplication",
    "Extract common functionality into reusable functions"⟩,
   ⟨"poor_naming", poorNamingTest, "low",
    "Poor variable naming",
    "Use more descriptive variable names"⟩,
   ⟨"missing_error_handling", missingErrorHandlingTest, "medium",
    "Missing error handling",
    "Add proper error handling for external calls"⟩]

/-- The issue object pushed on a rule match. -/
def mkIssue (p : AnalyzerPattern) (line : DiffLine) (fileInfo : FileInfo) : Issue :=
  ⟨p.type, p.severity, p.description, line.lineNumber,
   String.mk (trimChars line.content.data), fileInfo.path, p.suggestion⟩

/-- `analyzeLineForSecurity`: the issues this line appends, in rule order. -/
def analyzeLineForSecurity (line : DiffLine) (fileInfo : FileInfo) : List Issue :=
  initializeSecurityPatterns.filterMap fun p =>
    if p.test line.content then some (mkIssue p line fileInfo) else none

/-- `analyzeLineForPerformance`. -/
def analyzeLineForPerformance (line : DiffLine) (fileInfo : FileInfo) : List Issue :=
  initializePerformancePatterns.filterMap fun p =>
    if p.test line.content then some (mkIssue p line fileInfo) else none

/-- `analyzeLineForQuality`. -/
def analyzeLineForQuality (line : DiffLine) (fileInfo : FileInfo) : List Issue :=
  initializeQualityPatterns.filterMap fun p =>
    if p.test line.content then some (mkIssue p line fileInfo) else none

/-- The `importantPatterns` of `analyzeRemovedLine`, each with its
`pattern.source` text used in the suggestion description. -/
def importantPatterns : List (String × (String → Bool)) :=
  [("error.handling", errorDotHandlingTest),
   ("validation", fun s => icontains s "validation"),
   ("security", fun s => icontains s "security"),
   ("authentication", fun s => icontains s "authentication"),
   ("authorization", fun s => icontains s "authorization"),
   ("logging", fun s => icontains s "logging")]

/-- `analyzeRemovedLine`: the `removed_functionality` suggestions this
removed line appends to `analysis.suggestions`. -/
def analyzeRemovedLine (line : DiffLine) (fileInfo : FileInfo) : List Sugg :=
  importantPatterns.filterMap fun p =>
    if p.2 line.content then
      some ⟨"removed_functionality", none, some "medium",
            "Important functionality may have been removed: " ++ p.1,
            none, some fileInfo.path,
            some "Verify that this functionality is replaced or no longer needed"⟩
    else none

/-! ## Risk scoring (`calculateRiskScore`) -/

/-- Weight of a security issue in `calculateRiskScore`'s first `switch`;
severities outside the four levels fall through the switch and add 0. -/
def securityWeight (severity : String) : ℚ :=
  if severity = "critical" then 4
  else if severity = "high" then 3
  else if severity = "medium" then 2
  else if severity = "low" then 1
  else 0

/-- Weight of a performance issue (second `switch`). -/
def performanceWeight (severity : String) : ℚ :=
  if severity = "critical" then 3
  else if severity = "high" then 2
  else if severity = "medium" then 1
  else if severity = "low" then 1 / 2
  else 0

/-- Weight of a quality issue (third `switch`). -/
def qualityWeight (severity : String) : ℚ :=
  if severity = "critical" then 2
  else if severity = "high" then 1
  else if severity = "medium" then 1 / 2
  else if severity = "low" then 1 / 4
  else 0

/-- `calculateRiskScore`: the fractional weighted sum, then
`Math.min(10, Math.round(score))`; JS `Math.round x = ⌊x + 1/2⌋`. -/
def calculateRiskScore (analysis : Analysis) : ℤ :=
  let score : ℚ :=
    (analysis.security.map (fun i => securityWeight i.severity)).sum
    + (analysis.performance.map (fun i => performanceWeight i.severity)).sum
    + (analysis.quality.map (fun i => qualityWeight i.severity)).sum
  min 10 ⌊score + 1 / 2⌋

/-! ## Suggestion generation and `analyzeDiff` -/

/-- `generateSuggestions`: a fresh list built from the three issue-count
thresholds (it does not include `analysis.suggestions`). -/
def generateSuggestions (analysis : Analysis) : List Sugg :=
  (if 0 < analysis.security.length then
    [⟨"security_review", some "high", none,
      "Security review recommended due to potential vulnerabilities",
      some "Have a security expert review the changes", none, none⟩]
   else [])
  ++ (if 2 < analysis.performance.length then
    [⟨"performance_testing", some "medium", none,
      "Performance testing recommended due to multiple performance concerns",
      some "Run performance tests before merging", none, none⟩]
   else [])
  ++ (if 5 < analysis.quality.length then
    [⟨"code_refactoring", some "low", none,
      "Consider refactoring to improve code quality",
      some "Address code quality issues in a follow-up PR", none, none⟩]
   else [])

/-- The initial `analysis` object of `analyzeDiff`. -/
def emptyAnalysis : Analysis := ⟨[], [], [], [], 0⟩

/-- `analyzeDiff(diffContent, fileInfo)`.  `diffContent : Option String`
models a possibly `null`/`undefined` argument; `!diffContent` is true for
`null`, `undefined` and the empty string.  Mirroring the source order:
issues are accumulated per added line, `removed_functionality`
suggestions per removed line, then `riskScore` is computed, and finally
`analysis.suggestions` is ASSIGNED the result of `generateSuggestions`
(overwriting the suggestions collected from removed lines). -/
def analyzeDiff (diffContent : Option String) (fileInfo : FileInfo) : Analysis :=
  match diffContent with
  | none => emptyAnalysis
  | some s =>
    if s = "" then emptyAnalysis
    else
      let diffLines := parseDiffLines s
      let security := diffLines.added.flatMap fun l => analyzeLineForSecurity l fileInfo
      let performance := diffLines.added.flatMap fun l => analyzeLineForPerformance l fileInfo
      let quality := diffLines.added.flatMap fun l => analyzeLineForQuality l fileInfo
      let removedSuggs := diffLines.removed.flatMap fun l => analyzeRemovedLine l fileInfo
      let analysis1 : Analysis := ⟨security, performance, quality, removedSuggs, 0⟩
      let analysis2 := { analysis1 with riskScore := calculateRiskScore analysis1 }
      { analysis2 with suggestions := generateSuggestions analysis2 }

/-! ## Lemmas about the risk scorer -/

theorem securityWeight_nonneg (s : String) : 0 ≤ securityWeight s := by
  unfold securityWeight; split_ifs <;> norm_num

theorem performanceWeight_nonneg (s : String) : 0 ≤ performanceWeight s := by
  unfold performanceWeight; split_ifs <;> norm_num

theorem qualityWeight_nonneg (s : String) : 0 ≤ qualityWeight s := by
  unfold qualityWeight; split_ifs <;> norm_num

/-- The fractional weighted sum reduced by `calculateRiskScore`. -/
def riskWeightedSum (a : Analysis) : ℚ :=
  (a.security.map fun i => securityWeight i.severity).sum
  + (a.performance.map fun i => performanceWeight i.severity).sum
  + (a.quality.map fun i => qualityWeight i.severity).sum

theorem riskWeightedSum_nonneg (a : Analysis) : 0 ≤ riskWeightedSum a := by
  unfold riskWeightedSum
  have h1 : (0:ℚ) ≤ (a.security.map fun i => securityWeight i.severity).sum :=
    List.sum_nonneg (by
      intro x hx
      obtain ⟨i, _, rfl⟩ := List.mem_map.mp hx
      exact securityWeight_nonneg _)
  have h2 : (0:ℚ) ≤ (a.performance.map fun i => performanceWeight i.severity).sum :=
    List.sum_nonneg (by
      intro x hx
      obtain ⟨i, _, rfl⟩ := List.mem_map.mp hx
      exact performanceWeight_nonneg _)
  have h3 : (0:ℚ) ≤ (a.quality.map fun i => qualityWeight i.severity).sum :=
    List.sum_nonneg (by
      intro x hx
      obtain ⟨i, _, rfl⟩ := List.mem_map.mp hx
      exact qualityWeight_nonneg _)
  linarith

/-- C1: `calculateRiskScore` is the severity-weighted sum (security
critical/high/medium/low = 4/3/2/1, performance = 3/2/1/½, quality =
2/1/½/¼, other severities 0), rounded to the nearest integer (JS
`Math.round`, half up) and clamped to at most 10; the result is an
integer in `[0, 10]` and is invariant under permuting the issue lists. -/
theorem c1_riskScore_weighted_clamped (a b : Analysis)
    (hs : a.security.Perm b.security)
    (hp : a.performance.Perm b.performance)
    (hq : a.quality.Perm b.quality) :
    calculateRiskScore a = min 10 ⌊riskWeightedSum a + 1 / 2⌋
    ∧ 0 ≤ calculateRiskScore a ∧ calculateRiskScore a ≤ 10
    ∧ calculateRiskScore a = calculateRiskScore b := by
  refine ⟨rfl, ?_, min_le_left _ _, ?_⟩
  · have h0 : (0:ℚ) ≤ riskWeightedSum a + 1 / 2 := by
      have := riskWeightedSum_nonneg a; linarith
    exact le_min (by norm_num) (Int.floor_nonneg.mpr h0)
  · have e1 := (hs.map (fun i => securityWeight i.severity)).sum_eq
    have e2 := (hp.map (fun i => performanceWeight i.severity)).sum_eq
    have e3 := (hq.map (fun i => qualityWeight i.severity)).sum_eq
    unfold calculateRiskScore
    rw [e1, e2, e3]

/-- A concrete analysis: two security issues and a low-severity quality
issue, listed in one order… -/
def riskExampleA : Analysis :=
  ⟨[⟨"sql_injection", "critical", "d", 0, "c", "f", "s"⟩,
    ⟨"xss_vulnerability", "high", "d", 0, "c", "f", "s"⟩],
   [⟨"memory_leak", "high", "d", 0, "c", "f", "s"⟩],
   [⟨"magic_number", "low", "d", 0, "c", "f", "s"⟩,
    ⟨"poor_naming", "bogus-severity", "d", 0, "c", "f", "s"⟩],
   [], 0⟩

/-- …and the same issues with each list permuted. -/
def riskExampleB : Analysis :=
  ⟨[⟨"xss_vulnerability", "high", "d", 0, "c", "f", "s"⟩,
    ⟨"sql_injection", "critical", "d", 0, "c", "f", "s"⟩],
   [⟨"memory_leak", "high", "d", 0, "c", "f", "s"⟩],
   [⟨"poor_naming", "bogus-severity", "d", 0, "c", "f", "s"⟩,
    ⟨"magic_number", "low", "d", 0, "c", "f", "s"⟩],
   [], 0⟩

/-- Witness for C1 at a concrete pair of permuted analyses. -/
theorem c1_riskScore_weighted_clamped_witness :
    calculateRiskScore riskExampleA = min 10 ⌊riskWeightedSum riskExampleA + 1 / 2⌋
    ∧ 0 ≤ calculateRiskScore riskExampleA ∧ calculateRiskScore riskExampleA ≤ 10
    ∧ calculateRiskScore riskExampleA = calculateRiskScore riskExampleB :=
  c1_riskScore_weighted_clamped riskExampleA riskExampleB
    (by decide) (by decide) (by decide)

/-! ## C2: removed-functionality suggestions are discarded

`analyzeRemovedLine` does append a `removed_functionality` suggestion to
`analysis.suggestions` for a removed line matching `/validation/i`, but
`analyzeDiff` then assigns `analysis.suggestions =
this.generateSuggestions(analysis, fileInfo)`, a fresh list built only
from the issue-count thresholds — so every suggestion accumulated during
removed-line scanning is dropped from the returned result. -/

/-- C2 (code bug): a diff consisting of the single removed line
`-input validation removed` makes the removed-line scanner produce a
`removed_functionality` suggestion, yet the `AnalysisResult` returned by
`analyzeDiff` has an empty `suggestions` list (the assignment in
`analyzeDiff` overwrites the accumulated suggestions). -/
theorem c2_removed_suggestions_discarded :
    analyzeRemovedLine ⟨"input validation removed", 0⟩ ⟨"auth.js"⟩
      = [⟨"removed_functionality", none, some "medium",
          "Important functionality may have been removed: validation",
          none, some "auth.js",
          some "Verify that this functionality is replaced or no longer needed"⟩]
    ∧ (parseDiffLines "-input validation removed").removed
        = [⟨"input validation removed", 0⟩]
    ∧ (analyzeDiff (some "-input validation removed") ⟨"auth.js"⟩).suggestions = [] := by
  exact ⟨by decide, by decide, by decide⟩

/-! ## C4: Scenario A yields no security issue

The `sql_injection` pattern is `/(?:select|...)\s+.*\+.*\$/i`: `\$` is an
escaped, hence literal, dollar character.  Scenario A's line contains no
`'$'`, so the rule cannot match and the security list stays empty. -/

/-- C4 (code bug): analyzing the diff line
`+ const query = "SELECT * FROM users WHERE id=" + userId;` produces an
empty security list — not one critical `sql_injection` issue — because
the rule's regex demands a literal `'$'`; the same line with a `'$'`
appended does match, exhibiting the mis-escaped end anchor. -/
theorem c4_scenarioA_no_sql_injection :
    (analyzeDiff (some "+ const query = \"SELECT * FROM users WHERE id=\" + userId;")
        ⟨"db.js"⟩).security = []
    ∧ sqlInjectionTest " const query = \"SELECT * FROM users WHERE id=\" + userId;" = false
    ∧ sqlInjectionTest " const query = \"SELECT * FROM users WHERE id=\" + userId + \"$\";" = true := by
  exact ⟨by decide, by decide, by decide⟩

/-! ## C7: null/empty diff input -/

/-- C7 counterexample: `parseDiffLines` applied to the empty string does
NOT yield three empty sequences — the single empty line produced by
`split('\n')` falls into the context bucket. -/
theorem c7_parseDiffLines_empty_not_all_empty :
    (parseDiffLines "").context ≠ [] := by decide

/-- C7 as amended: for `null`/missing and for empty diff content,
`analyzeDiff` returns the empty-but-valid result (all four lists empty,
`riskScore = 0`); `parseDiffLines ""` has empty added and removed
sequences but a context sequence holding one empty line. -/
theorem c7_empty_input_amended (fileInfo : FileInfo) :
    analyzeDiff none fileInfo = emptyAnalysis
    ∧ analyzeDiff (some "") fileInfo = emptyAnalysis
    ∧ (parseDiffLines "").added = []
    ∧ (parseDiffLines "").removed = []
    ∧ (parseDiffLines "").context = [⟨"", 0⟩] := by
  refine ⟨rfl, by simp [analyzeDiff], by decide, by decide, by decide⟩

/-! ## `summarizeChanges` (src/unnamed/part_003 and
`src/azure-devops-pr-reviewer/functions/diff-analyzer.js`) -/

/-- A change record as consumed by `summarizeChanges`; only `changeType`
is read. -/
structure ChangeRecord where
  changeType : String
deriving Repr, DecidableEq

/-- The summary object of the `part_003` variant:
`{files, added, deleted, edited}`. -/
structure ChangeSummary where
  files : Nat
  added : Nat
  deleted : Nat
  edited : Nat
deriving Repr, DecidableEq

/-- One iteration of the `part_003` loop: `summary.files++` then the
`switch` on `changeType` with cases `add`/`delete`/`edit`. -/
def summarizeStep (summary : ChangeSummary) (change : ChangeRecord) : ChangeSummary :=
  let summary := { summary with files := summary.files + 1 }
  match change.changeType with
  | "add" => { summary with added := summary.added + 1 }
  | "delete" => { summary with deleted := summary.deleted + 1 }
  | "edit" => { summary with edited := summary.edited + 1 }
  | _ => summary

/-- `summarizeChanges` (`src/unnamed/part_003`). -/
def summarizeChanges (changes : List ChangeRecord) : ChangeSummary :=
  changes.foldl summarizeStep ⟨0, 0, 0, 0⟩

/-- The summary object of the reviewer variant: `{files, added, deleted}`. -/
structure ReviewerSummary where
  files : Nat
  added : Nat
  deleted : Nat
deriving Repr, DecidableEq

namespace PrReviewer

/-- One iteration of the reviewer-variant loop: `files++` and two
independent `if` counters. -/
def summarizeStep (summary : ReviewerSummary) (change : ChangeRecord) : ReviewerSummary :=
  let summary := { summary with files := summary.files + 1 }
  let summary :=
    if change.changeType = "add" then { summary with added := summary.added + 1 }
    else summary
  if change.changeType = "delete" then { summary with deleted := summary.deleted + 1 }
  else summary

/-- `summarizeChanges`
(`src/azure-devops-pr-reviewer/functions/diff-analyzer.js`). -/
def summarizeChanges (changes : List ChangeRecord) : ReviewerSummary :=
  changes.foldl summarizeStep ⟨0, 0, 0⟩

end PrReviewer

/-- Folding the `part_003` loop from an arbitrary accumulator adds the
from-zero totals componentwise. -/
theorem summarize_foldl_add (l : List ChangeRecord) (s : ChangeSummary) :
    l.foldl summarizeStep s
      = ⟨s.files + (summarizeChanges l).files,
         s.added + (summarizeChanges l).added,
         s.deleted + (summarizeChanges l).deleted,
         s.edited + (summarizeChanges l).edited⟩ := by
  induction l generalizing s with
  | nil => simp [summarizeChanges]
  | cons c t ih =>
    simp only [summarizeChanges, List.foldl_cons] at *
    rw [ih (summarizeStep s c), ih (summarizeStep ⟨0, 0, 0, 0⟩ c)]
    unfold summarizeStep
    split <;> simp <;> omega

/-- `summarizeChanges` on a cons, via `summarize_foldl_add`. -/
theorem summarizeChanges_cons (c : ChangeRecord) (t : List ChangeRecord) :
    summarizeChanges (c :: t)
      = ⟨(summarizeStep ⟨0, 0, 0, 0⟩ c).files + (summarizeChanges t).files,
         (summarizeStep ⟨0, 0, 0, 0⟩ c).added + (summarizeChanges t).added,
         (summarizeStep ⟨0, 0, 0, 0⟩ c).deleted + (summarizeChanges t).deleted,
         (summarizeStep ⟨0, 0, 0, 0⟩ c).edited + (summarizeChanges t).edited⟩ := by
  unfold summarizeChanges
  rw [List.foldl_cons, summarize_foldl_add]
  rfl

/-- Analogue of `summarize_foldl_add` for the reviewer variant. -/
theorem reviewer_foldl_add (l : List ChangeRecord) (s : ReviewerSummary) :
    l.foldl PrReviewer.summarizeStep s
      = ⟨s.files + (PrReviewer.summarizeChanges l).files,
         s.added + (PrReviewer.summarizeChanges l).added,
         s.deleted + (PrReviewer.summarizeChanges l).deleted⟩ := by
  induction l generalizing s with
  | nil => simp [PrReviewer.summarizeChanges]
  | cons c t ih =>
    simp only [PrReviewer.summarizeChanges, List.foldl_cons] at *
    rw [ih (PrReviewer.summarizeStep s c), ih (PrReviewer.summarizeStep ⟨0, 0, 0⟩ c)]
    unfold PrReviewer.summarizeStep
    split <;> split <;> simp <;> omega

/-- Reviewer `summarizeChanges` on a cons. -/
theorem reviewerChanges_cons (c : ChangeRecord) (t : List ChangeRecord) :
    PrReviewer.summarizeChanges (c :: t)
      = ⟨(PrReviewer.summarizeStep ⟨0, 0, 0⟩ c).files
           + (PrReviewer.summarizeChanges t).files,
         (PrReviewer.summarizeStep ⟨0, 0, 0⟩ c).added
           + (PrReviewer.summarizeChanges t).added,
         (PrReviewer.summarizeStep ⟨0, 0, 0⟩ c).deleted
           + (PrReviewer.summarizeChanges t).deleted⟩ := by
  unfold PrReviewer.summarizeChanges
  rw [List.foldl_cons, reviewer_foldl_add]
  rfl

/-- C5: on `[add, delete, edit]` the `part_003` summarizer returns
`{files: 3, added: 1, deleted: 1, edited: 1}` (Scenario C). -/
theorem c5_scenarioC_summary :
    summarizeChanges [⟨"add"⟩, ⟨"delete"⟩, ⟨"edit"⟩] = ⟨3, 1, 1, 1⟩ := by
  decide

/-- C10: for every change list, `files` equals the input length and the
per-type counters sum to at most `files` (both variants); a change whose
`changeType` is not one of `add`/`delete`/`edit` increments `files` only. -/
theorem c10_summary_counters (changes cs : List ChangeRecord) (c : ChangeRecord)
    (h1 : c.changeType ≠ "add") (h2 : c.changeType ≠ "delete")
    (h3 : c.changeType ≠ "edit") :
    (summarizeChanges changes).files = changes.length
    ∧ (summarizeChanges changes).added + (summarizeChanges changes).deleted
        + (summarizeChanges changes).edited ≤ (summarizeChanges changes).files
    ∧ (PrReviewer.summarizeChanges changes).files = changes.length
    ∧ (PrReviewer.summarizeChanges changes).added
        + (PrReviewer.summarizeChanges changes).deleted
        ≤ (PrReviewer.summarizeChanges changes).files
    ∧ summarizeChanges (c :: cs)
        = { summarizeChanges cs with files := (summarizeChanges cs).files + 1 }
    ∧ PrReviewer.summarizeChanges (c :: cs)
        = { PrReviewer.summarizeChanges cs with
            files := (PrReviewer.summarizeChanges cs).files + 1 } := by
  have hstep : ∀ d : ChangeRecord,
      (summarizeStep ⟨0, 0, 0, 0⟩ d).files = 1
      ∧ (summarizeStep ⟨0, 0, 0, 0⟩ d).added + (summarizeStep ⟨0, 0, 0, 0⟩ d).deleted
          + (summarizeStep ⟨0, 0, 0, 0⟩ d).edited ≤ 1 := by
    intro d
    unfold summarizeStep
    split <;> simp
  have hstepR : ∀ d : ChangeRecord,
      (PrReviewer.summarizeStep ⟨0, 0, 0⟩ d).files = 1
      ∧ (PrReviewer.summarizeStep ⟨0, 0, 0⟩ d).added
          + (PrReviewer.summarizeStep ⟨0, 0, 0⟩ d).deleted ≤ 1 := by
    intro d
    unfold PrReviewer.summarizeStep
    split <;> split <;> simp_all
  refine ⟨?_, ?_, ?_, ?_, ?_, ?_⟩
  · induction changes with
    | nil => rfl
    | cons d t ih =>
      rw [summarizeChanges_cons]
      simp only [List.length_cons]
      rw [(hstep d).1, ih]
      omega
  · induction changes with
    | nil => simp [summarizeChanges]
    | cons d t ih =>
      rw [summarizeChanges_cons]
      have h := (hstep d).2
      have hf := (hstep d).1
      simp only
      omega
  · induction changes with
    | nil => rfl
    | cons d t ih =>
      rw [reviewerChanges_cons]
      simp only [List.length_cons]
      rw [(hstepR d).1, ih]
      omega
  · induction changes with
    | nil => simp [PrReviewer.summarizeChanges]
    | cons d t ih =>
      rw [reviewerChanges_cons]
      have h := (hstepR d).2
      have hf := (hstepR d).1
      simp only
      omega
  · have hc : summarizeStep ⟨0, 0, 0, 0⟩ c = ⟨1, 0, 0, 0⟩ := by
      unfold summarizeStep
      split
      · exact absurd (by assumption) h1
      · exact absurd (by assumption) h2
      · exact absurd (by assumption) h3
      · rfl
    rw [summarizeChanges_cons, hc]
    simp [Nat.add_comm]
  · have hc : PrReviewer.summarizeStep ⟨0, 0, 0⟩ c = ⟨1, 0, 0⟩ := by
      unfold PrReviewer.summarizeStep
      rw [if_neg (by simpa using h2), if_neg (by simpa using h1)]
    rw [reviewerChanges_cons, hc]
    simp [Nat.add_comm]

/-- Witness for C10 at a concrete list with an unrecognized `rename`. -/
theorem c10_summary_counters_witness :
    (summarizeChanges [⟨"add"⟩, ⟨"rename"⟩]).files = ([⟨"add"⟩, ⟨"rename"⟩] : List ChangeRecord).length
    ∧ (summarizeChanges [⟨"add"⟩, ⟨"rename"⟩]).added
        + (summarizeChanges [⟨"add"⟩, ⟨"rename"⟩]).deleted
        + (summarizeChanges [⟨"add"⟩, ⟨"rename"⟩]).edited
        ≤ (summarizeChanges [⟨"add"⟩, ⟨"rename"⟩]).files
    ∧ (PrReviewer.summarizeChanges [⟨"add"⟩, ⟨"rename"⟩]).files
        = ([⟨"add"⟩, ⟨"rename"⟩] : List ChangeRecord).length
    ∧ (PrReviewer.summarizeChanges [⟨"add"⟩, ⟨"rename"⟩]).added
        + (PrReviewer.summarizeChanges [⟨"add"⟩, ⟨"rename"⟩]).deleted
        ≤ (PrReviewer.summarizeChanges [⟨"add"⟩, ⟨"rename"⟩]).files
    ∧ summarizeChanges [⟨"rename"⟩, ⟨"add"⟩]
        = { summarizeChanges [⟨"add"⟩] with
            files := (summarizeChanges [⟨"add"⟩]).files + 1 }
    ∧ PrReviewer.summarizeChanges [⟨"rename"⟩, ⟨"add"⟩]
        = { PrReviewer.summarizeChanges [⟨"add"⟩] with
            files := (PrReviewer.summarizeChanges [⟨"add"⟩]).files + 1 } :=
  c10_summary_counters [⟨"add"⟩, ⟨"rename"⟩] [⟨"add"⟩] ⟨"rename"⟩
    (by decide) (by decide) (by decide)

/-! ## Azure DevOps client (`src/functions/azure-devops-client.js`) and
error handler (`src/functions/error-handler.js`)

`makeRequest` performs one network attempt; it is modelled as an
environment `fn : Nat → Except AzureError α` giving the outcome of the
`attempt`-th call.  `ErrorHandler.retry` is embedded as a loop over the
attempt counter, returning the result together with the number of
attempts performed (0 when validation fails before any request). -/

/-- The error rejected by `makeRequest` (an `AzureDevOpsError` carrying an
HTTP-like `statusCode`). -/
structure AzureError where
  statusCode : ℤ
deriving Repr, DecidableEq

/-- The body of `ErrorHandler.retry`'s `for` loop, structured on the
remaining loop iterations (`fuel` starts at `maxAttempts`, so the
`attempt === maxAttempts` break always fires before fuel runs out):
try `fn(attempt)`; on success return; on error break — throwing the last
error — when `attempt === maxAttempts` or `!retryCondition(error)`,
otherwise sleep and continue with `attempt + 1`. -/
def retryGo (fn : Nat → Except AzureError α) (cond : AzureError → Bool)
    (maxAttempts : Nat) : Nat → Nat → Except AzureError α × Nat
  | attempt, fuel =>
    match fn attempt, fuel with
    | .ok v, _ => (.ok v, attempt)
    | .error e, 0 => (.error e, attempt)
    | .error e, f + 1 =>
      if attempt = maxAttempts || !cond e then (.error e, attempt)
      else retryGo fn cond maxAttempts (attempt + 1) f

/-- `ErrorHandler.retry(fn, {maxAttempts, retryCondition})`, starting at
attempt 1. -/
def retry (fn : Nat → Except AzureError α) (maxAttempts : Nat)
    (cond : AzureError → Bool) : Except AzureError α × Nat :=
  retryGo fn cond maxAttempts 1 maxAttempts

/-- The retry condition used by both retried client calls:
`(error) => error.statusCode >= 500`. -/
def status500Cond (e : AzureError) : Bool := 500 ≤ e.statusCode

/-- A comment inside `threadData.comments`. -/
structure Comment where
  content : String
deriving Repr, DecidableEq

/-- The `comments` property of `threadData`: absent/`undefined`, present
but not an array, or an array of comments. -/
inductive CommentsVal where
  | undefinedVal : CommentsVal
  | nonArray : CommentsVal
  | arr (cs : List Comment) : CommentsVal
deriving Repr, DecidableEq

/-- The `threadData` argument of `createPullRequestThread`. -/
structure ThreadData where
  comments : CommentsVal
deriving Repr, DecidableEq

/-- A parameter value as seen by `ErrorHandler.validateRequired`:
`undefined`, `null`, a string, a number, or the thread-data object. -/
inductive JsArg where
  | undefinedVal : JsArg
  | null : JsArg
  | strv (s : String) : JsArg
  | numv (n : ℤ) : JsArg
  | objv (t : ThreadData) : JsArg
deriving Repr, DecidableEq

/-- `data[field] === undefined || data[field] === null ||
data[field] === ''`. -/
def isMissingArg : JsArg → Bool
  | .undefinedVal => true
  | .null => true
  | .strv s => s = ""
  | .numv _ => false
  | .objv _ => false

/-- `ErrorHandler.validateRequired`: the `missing` list accumulated over
the required fields, in order. -/
def validateRequiredMissing (data : List (String × JsArg)) : List String :=
  data.foldl (fun missing f => if isMissingArg f.2 then missing ++ [f.1] else missing) []

/-- The errors a client call can throw before or during requests:
`ValidationError` (status 400, naming the missing fields) or an
`AzureDevOpsError` (explicit status). -/
inductive ClientError where
  | validation (missingFields : List String) : ClientError
  | azure (message : String) (statusCode : ℤ) : ClientError
deriving Repr, DecidableEq

/-- `statusCode` of a `ClientError` (a `ValidationError` is constructed
with status 400). -/
def ClientError.status : ClientError → ℤ
  | .validation _ => 400
  | .azure _ s => s

/-- `threadData.comments` of a `JsArg` (property access on a non-object
yields `undefined`). -/
def commentsOf : JsArg → CommentsVal
  | .objv t => t.comments
  | _ => .undefinedVal

/-- `!threadData.comments || !Array.isArray(threadData.comments) ||
threadData.comments.length === 0`. -/
def commentsInvalid : CommentsVal → Bool
  | .undefinedVal => true
  | .nonArray => true
  | .arr cs => cs.length = 0

/-- `getPullRequest`: validate `{project, repositoryId, pullRequestId}`,
then `ErrorHandler.retry` of the GET with `maxAttempts: 3` and the
`statusCode >= 500` condition.  The second component is the number of
request attempts issued (0 = failed before any network call). -/
def getPullRequest (project repositoryId pullRequestId : JsArg)
    (fn : Nat → Except AzureError α) : Except ClientError α × Nat :=
  let missing := validateRequiredMissing
    [("project", project), ("repositoryId", repositoryId),
     ("pullRequestId", pullRequestId)]
  if missing ≠ [] then (.error (.validation missing), 0)
  else
    let r := retry fn 3 status500Cond
    (r.1.mapError (fun e => .azure "" e.statusCode), r.2)

/-- `getPullRequestChanges`: a single `makeRequest` call, no validation,
no retry. -/
def getPullRequestChanges (fn : Nat → Except AzureError α) :
    Except ClientError α × Nat :=
  ((fn 1).mapError (fun e => .azure "" e.statusCode), 1)

/-- `getFileContent`: a single `makeRequest` call, no retry. -/
def getFileContent (fn : Nat → Except AzureError α) :
    Except ClientError α × Nat :=
  ((fn 1).mapError (fun e => .azure "" e.statusCode), 1)

/-- `createPullRequestThread`: validate the four required parameters,
then the comments check (`AzureDevOpsError` with status 400), then
`ErrorHandler.retry` of the POST with `maxAttempts: 2`. -/
def createPullRequestThread (project repositoryId pullRequestId threadData : JsArg)
    (fn : Nat → Except AzureError α) : Except ClientError α × Nat :=
  let missing := validateRequiredMissing
    [("project", project), ("repositoryId", repositoryId),
     ("pullRequestId", pullRequestId), ("threadData", threadData)]
  if missing ≠ [] then (.error (.validation missing), 0)
  else if commentsInvalid (commentsOf threadData) then
    (.error (.azure "Thread data must contain at least one comment" 400), 0)
  else
    let r := retry fn 2 status500Cond
    (r.1.mapError (fun e => .azure "" e.statusCode), r.2)

/-- `updatePullRequestThread`: a single `makeRequest` call, no retry. -/
def updatePullRequestThread (fn : Nat → Except AzureError α) :
    Except ClientError α × Nat :=
  ((fn 1).mapError (fun e => .azure "" e.statusCode), 1)

/-! ## C3: which operations retry -/

/-- An environment whose first attempt fails with status 500 and whose
later attempts succeed. -/
def retryProbe : Nat → Except AzureError Nat :=
  fun n => if n = 1 then .error ⟨500⟩ else .ok 42

/-- C3 counterexample: under an environment that fails with status 500 on
the first attempt and succeeds on the second, `getPullRequest` retries
and succeeds after 2 attempts, but `getPullRequestChanges` and
`getFileContent` propagate the 500 failure after exactly 1 attempt — they
are not wrapped in `ErrorHandler.retry`, contradicting the claim that all
three GETs retry on `statusCode >= 500`. -/
theorem c3_changes_and_file_not_retried :
    getPullRequestChanges retryProbe = (.error (.azure "" 500), 1)
    ∧ getFileContent retryProbe = (.error (.azure "" 500), 1)
    ∧ getPullRequest (.strv "p") (.strv "r") (.numv 7) retryProbe = (.ok 42, 2) := by
  refine ⟨rfl, rfl, rfl⟩

/-- Attempt-count bound of the retry loop: starting at an attempt number
at most `maxAttempts`, the loop never reports more than `maxAttempts`
attempts. -/
theorem retryGo_attempts_le (fn : Nat → Except AzureError α)
    (cond : AzureError → Bool) (maxAttempts : Nat) :
    ∀ fuel attempt, attempt ≤ maxAttempts →
      (retryGo fn cond maxAttempts attempt fuel).2 ≤ maxAttempts := by
  intro fuel
  induction fuel with
  | zero =>
    intro attempt h
    unfold retryGo
    rcases fn attempt <;> simpa
  | succ f ih =>
    intro attempt h
    unfold retryGo
    rcases hfa : fn attempt with e | v
    · by_cases hb : (decide (attempt = maxAttempts) || !cond e) = true
      · simpa [hb]
      · have hne : attempt ≠ maxAttempts := by
          intro hh
          simp [hh] at hb
        have hlt : attempt + 1 ≤ maxAttempts := by omega
        simpa [hb] using ih (attempt + 1) hlt
    · simpa

/-- The retry loop stops after the first attempt when the condition
rejects the error. -/
theorem retry_stop_first (fn : Nat → Except AzureError α) (e : AzureError)
    (maxAttempts : Nat) (hm : maxAttempts = 2 ∨ maxAttempts = 3)
    (h1 : fn 1 = .error e) (hc : status500Cond e = false) :
    retry fn maxAttempts status500Cond = (.error e, 1) := by
  rcases hm with rfl | rfl <;> simp [retry, retryGo, h1, hc]

/-- The retry loop succeeds at the second attempt after one qualifying
failure. -/
theorem retry_ok_second (fn : Nat → Except AzureError α) (e : AzureError)
    (v : α) (maxAttempts : Nat) (hm : maxAttempts = 2 ∨ maxAttempts = 3)
    (h1 : fn 1 = .error e) (hc : status500Cond e = true) (h2 : fn 2 = .ok v) :
    retry fn maxAttempts status500Cond = (.ok v, 2) := by
  rcases hm with rfl | rfl <;> simp [retry, retryGo, h1, h2, hc]

/-- C3 as amended: `getPullRequest` (alone among the GETs) is retried up
to 3 attempts, retrying only when the failed attempt's status code is
≥ 500 and propagating any other failure immediately;
`getPullRequestChanges` and `getFileContent` perform exactly one attempt;
`createPullRequestThread` is retried up to 2 attempts under the same
≥ 500 condition; `updatePullRequestThread` performs exactly one attempt. -/
theorem c3_retry_policy_amended (project repositoryId pullRequestId threadData : JsArg)
    (fn : Nat → Except AzureError α)
    (hp : isMissingArg project = false) (hr : isMissingArg repositoryId = false)
    (hid : isMissingArg pullRequestId = false) (htd : isMissingArg threadData = false)
    (hcm : commentsInvalid (commentsOf threadData) = false) :
    (getPullRequest project repositoryId pullRequestId fn).2 ≤ 3
    ∧ (∀ e, fn 1 = .error e → e.statusCode < 500 →
        getPullRequest project repositoryId pullRequestId fn
          = (.error (.azure "" e.statusCode), 1))
    ∧ (∀ e v, fn 1 = .error e → 500 ≤ e.statusCode → fn 2 = .ok v →
        getPullRequest project repositoryId pullRequestId fn = (.ok v, 2))
    ∧ (∀ e₁ e₂ e₃, fn 1 = .error e₁ → fn 2 = .error e₂ → fn 3 = .error e₃ →
        500 ≤ e₁.statusCode → 500 ≤ e₂.statusCode →
        getPullRequest project repositoryId pullRequestId fn
          = (.error (.azure "" e₃.statusCode), 3))
    ∧ getPullRequestChanges (α := α) fn
        = ((fn 1).mapError (fun e => .azure "" e.statusCode), 1)
    ∧ getFileContent (α := α) fn
        = ((fn 1).mapError (fun e => .azure "" e.statusCode), 1)
    ∧ (createPullRequestThread project repositoryId pullRequestId threadData fn).2 ≤ 2
    ∧ (∀ e, fn 1 = .error e → e.statusCode < 500 →
        createPullRequestThread project repositoryId pullRequestId threadData fn
          = (.error (.azure "" e.statusCode), 1))
    ∧ (∀ e v, fn 1 = .error e → 500 ≤ e.statusCode → fn 2 = .ok v →
        createPullRequestThread project repositoryId pullRequestId threadData fn
          = (.ok v, 2))
    ∧ (∀ e₁ e₂, fn 1 = .error e₁ → fn 2 = .error e₂ → 500 ≤ e₁.statusCode →
        createPullRequestThread project repositoryId pullRequestId threadData fn
          = (.error (.azure "" e₂.statusCode), 2))
    ∧ updatePullRequestThread (α := α) fn
        = ((fn 1).mapError (fun e => .azure "" e.statusCode), 1) := by
  have hm3 : validateRequiredMissing
      [("project", project), ("repositoryId", repositoryId),
       ("pullRequestId", pullRequestId)] = [] := by
    simp [validateRequiredMissing, hp, hr, hid]
  have hm4 : validateRequiredMissing
      [("project", project), ("repositoryId", repositoryId),
       ("pullRequestId", pullRequestId), ("threadData", threadData)] = [] := by
    simp [validateRequiredMissing, hp, hr, hid, htd]
  have hget : getPullRequest project repositoryId pullRequestId fn
      = ((retry fn 3 status500Cond).1.mapError (fun e => .azure "" e.statusCode),
         (retry fn 3 status500Cond).2) := by
    simp [getPullRequest, hm3]
  have hcreate : createPullRequestThread project repositoryId pullRequestId threadData fn
      = ((retry fn 2 status500Cond).1.mapError (fun e => .azure "" e.statusCode),
         (retry fn 2 status500Cond).2) := by
    simp [createPullRequestThread, hm4, hcm]
  refine ⟨?_, ?_, ?_, ?_, rfl, rfl, ?_, ?_, ?_, ?_, rfl⟩
  · rw [hget]
    exact retryGo_attempts_le fn status500Cond 3 3 1 (by omega)
  · intro e h1 hlt
    rw [hget]
    have hc : status500Cond e = false := by
      simp only [status500Cond, decide_eq_false_iff_not, not_le]
      exact hlt
    rw [retry_stop_first fn e 3 (Or.inr rfl) h1 hc]
    simp [Except.mapError]
  · intro e v h1 hge h2
    rw [hget]
    have hc : status500Cond e = true := by simp [status500Cond, hge]
    rw [retry_ok_second fn e v 3 (Or.inr rfl) h1 hc h2]
    simp [Except.mapError]
  · intro e₁ e₂ e₃ h1 h2 h3 hge₁ hge₂
    rw [hget]
    have hc1 : status500Cond e₁ = true := by simp [status500Cond, hge₁]
    have hc2 : status500Cond e₂ = true := by simp [status500Cond, hge₂]
    have : retry fn 3 status500Cond = (.error e₃, 3) := by
      simp [retry, retryGo, h1, h2, h3, hc1, hc2]
    rw [this]
    simp [Except.mapError]
  · rw [hcreate]
    exact retryGo_attempts_le fn status500Cond 2 2 1 (by omega)
  · intro e h1 hlt
    rw [hcreate]
    have hc : status500Cond e = false := by
      simp only [status500Cond, decide_eq_false_iff_not, not_le]
      exact hlt
    rw [retry_stop_first fn e 2 (Or.inl rfl) h1 hc]
    simp [Except.mapError]
  · intro e v h1 hge h2
    rw [hcreate]
    have hc : status500Cond e = true := by simp [status500Cond, hge]
    rw [retry_ok_second fn e v 2 (Or.inl rfl) h1 hc h2]
    simp [Except.mapError]
  · intro e₁ e₂ h1 h2 hge₁
    rw [hcreate]
    have hc1 : status500Cond e₁ = true := by simp [status500Cond, hge₁]
    have : retry fn 2 status500Cond = (.error e₂, 2) := by
      simp [retry, retryGo, h1, h2, hc1]
    rw [this]
    simp [Except.mapError]

/-- Witness for C3's amended policy at concrete arguments and a concrete
environment. -/
theorem c3_retry_policy_amended_witness :
    (getPullRequest (.strv "p") (.strv "r") (.numv 7) retryProbe).2 ≤ 3 :=
  (c3_retry_policy_amended (.strv "p") (.strv "r") (.numv 7)
    (.objv ⟨.arr [⟨"hello"⟩]⟩) retryProbe rfl rfl rfl rfl rfl).1

/-! ## C9: createPullRequestThread validation -/

/-- `validateRequired` collects exactly the missing fields, in order. -/
theorem validateRequiredMissing_filter (data : List (String × JsArg)) :
    validateRequiredMissing data
      = (data.filter (fun f => isMissingArg f.2)).map Prod.fst := by
  have go : ∀ (l : List (String × JsArg)) (acc : List String),
      l.foldl (fun missing f =>
        if isMissingArg f.2 then missing ++ [f.1] else missing) acc
      = acc ++ (l.filter (fun f => isMissingArg f.2)).map Prod.fst := by
    intro l
    induction l with
    | nil => intro acc; simp
    | cons f t ih =>
      intro acc
      by_cases h : isMissingArg f.2 <;> simp [h, ih]
  simpa using go data []

/-- C9: when any of the four required parameters of
`createPullRequestThread` is missing (undefined, null, or the empty
string), or `threadData.comments` is missing, not an array, or empty, the
call fails before any request is issued (attempt count 0) with a
status-400 error; a missing-parameter failure is a `ValidationError`
naming exactly the missing fields. -/
theorem c9_createThread_validation
    (project repositoryId pullRequestId threadData : JsArg)
    (fn : Nat → Except AzureError α)
    (h : validateRequiredMissing
          [("project", project), ("repositoryId", repositoryId),
           ("pullRequestId", pullRequestId), ("threadData", threadData)] ≠ []
         ∨ commentsInvalid (commentsOf threadData) = true) :
    (∃ e : ClientError,
      createPullRequestThread project repositoryId pullRequestId threadData fn
        = (.error e, 0) ∧ e.status = 400)
    ∧ validateRequiredMissing
        [("project", project), ("repositoryId", repositoryId),
         ("pullRequestId", pullRequestId), ("threadData", threadData)]
      = (([("project", project), ("repositoryId", repositoryId),
           ("pullRequestId", pullRequestId), ("threadData", threadData)].filter
            (fun f => isMissingArg f.2)).map Prod.fst)
    ∧ (validateRequiredMissing
          [("project", project), ("repositoryId", repositoryId),
           ("pullRequestId", pullRequestId), ("threadData", threadData)] ≠ [] →
        createPullRequestThread project repositoryId pullRequestId threadData fn
          = (.error (.validation (validateRequiredMissing
              [("project", project), ("repositoryId", repositoryId),
               ("pullRequestId", pullRequestId), ("threadData", threadData)])), 0)) := by
  refine ⟨?_, validateRequiredMissing_filter _, ?_⟩
  · rcases h with h | h
    · exact ⟨.validation (validateRequiredMissing
          [("project", project), ("repositoryId", repositoryId),
           ("pullRequestId", pullRequestId), ("threadData", threadData)]),
        by simp [createPullRequestThread, h], rfl⟩
    · by_cases hm : validateRequiredMissing
          [("project", project), ("repositoryId", repositoryId),
           ("pullRequestId", pullRequestId), ("threadData", threadData)] = []
      · exact ⟨.azure "Thread data must contain at least one comment" 400,
          by simp [createPullRequestThread, hm, h], rfl⟩
      · exact ⟨.validation (validateRequiredMissing
            [("project", project), ("repositoryId", repositoryId),
             ("pullRequestId", pullRequestId), ("threadData", threadData)]),
          by simp [createPullRequestThread, hm], rfl⟩
  · intro hm
    simp [createPullRequestThread, hm]

/-- Witness for C9: `project` null, `repositoryId` the empty string,
comments valid — the call fails with a `ValidationError` naming
`project` and `repositoryId`, issuing no request. -/
theorem c9_createThread_validation_witness :
    (∃ e : ClientError,
      createPullRequestThread .null (.strv "") (.numv 7) (.objv ⟨.arr [⟨"hi"⟩]⟩)
          retryProbe
        = (.error e, 0) ∧ e.status = 400)
    ∧ validateRequiredMissing
        [("project", JsArg.null), ("repositoryId", .strv ""),
         ("pullRequestId", .numv 7), ("threadData", .objv ⟨.arr [⟨"hi"⟩]⟩)]
      = (([("project", JsArg.null), ("repositoryId", .strv ""),
           ("pullRequestId", .numv 7), ("threadData", .objv ⟨.arr [⟨"hi"⟩]⟩)].filter
            (fun f => isMissingArg f.2)).map Prod.fst)
    ∧ (validateRequiredMissing
          [("project", JsArg.null), ("repositoryId", .strv ""),
           ("pullRequestId", .numv 7), ("threadData", .objv ⟨.arr [⟨"hi"⟩]⟩)] ≠ [] →
        createPullRequestThread .null (.strv "") (.numv 7) (.objv ⟨.arr [⟨"hi"⟩]⟩)
            retryProbe
          = (.error (.validation (validateRequiredMissing
              [("project", JsArg.null), ("repositoryId", .strv ""),
               ("pullRequestId", .numv 7),
               ("threadData", .objv ⟨.arr [⟨"hi"⟩]⟩)])), 0)) :=
  c9_createThread_validation .null (.strv "") (.numv 7) (.objv ⟨.arr [⟨"hi"⟩]⟩)
    retryProbe (Or.inl (by decide))

/-! ## Report formatter (`src/functions/report-formatter.js`)

`new Date()` is modelled by passing the clock reading explicitly: a
`Timestamp` holds the value of `toISOString()` at the call.  JS `x || d`
defaults on possibly-absent (`Option`) fields are modelled by `jsOrStr`
(empty string is falsy), `jsOrNum` (0 is falsy) and friends. -/

/-- The clock reading at a formatter call: `new Date().toISOString()`. -/
structure Timestamp where
  iso : String
deriving Repr, DecidableEq

/-- `new Date().toISOString().split('T')[0]` — the prefix before the
first `'T'`. -/
def isoDatePart (t : Timestamp) : String :=
  String.mk (t.iso.data.takeWhile (fun c => c ≠ 'T'))

/-- The optional `metrics` object. -/
structure Metrics where
  complexity : Option ℤ
  testCoverage : Option ℤ
  duplication : Option ℤ
  technicalDebt : Option ℤ
  maintainability : Option ℤ
deriving Repr, DecidableEq

/-- The analysis-data object consumed by `formatReport`; `none` models an
absent (`undefined`) property. -/
structure ReportData where
  repository : Option String
  pullRequestId : Option ℤ
  sourceBranch : Option String
  targetBranch : Option String
  author : Option String
  riskScore : Option ℤ
  recommendation : Option String
  filesChanged : Option ℤ
  linesAdded : Option ℤ
  linesRemoved : Option ℤ
  languages : Option (List String)
  criticalIssues : Option (List Issue)
  security : Option (List Issue)
  performance : Option (List Issue)
  quality : Option (List Issue)
  suggestions : Option (List Sugg)
  metrics : Option Metrics
  reviewId : Option String
deriving Repr, DecidableEq

/-- `value || default` for string-valued properties (absent and `''` are
falsy). -/
def jsOrStr (v : Option String) (d : String) : String :=
  match v with
  | some s => if s = "" then d else s
  | none => d

/-- `${value || default}` for number-valued properties rendered into the
template (absent and `0` are falsy). -/
def jsOrNum (v : Option ℤ) (d : String) : String :=
  match v with
  | some n => if n = 0 then d else toString n
  | none => d

/-- `${value || 0}` for number-valued properties. -/
def intDisp (v : Option ℤ) : String := toString (v.getD 0)

/-- JS `Array.prototype.join(sep)`. -/
def jsJoin (sep : String) : List String → String
  | [] => ""
  | [x] => x
  | x :: xs => x ++ sep ++ jsJoin sep xs

/-- `(data.languages || []).join(', ') || 'Unknown'`. -/
def languagesDisplay (v : Option (List String)) : String :=
  let j := jsJoin ", " (v.getD [])
  if j = "" then "Unknown" else j

/-- `s.replace(/_/g, ' ')`. -/
def replaceUnderscores (s : String) : String :=
  String.mk (s.data.map fun c => if c = '_' then ' ' else c)

/-- `s.toUpperCase()` (ASCII). -/
def jsToUpper (s : String) : String := String.mk (s.data.map Char.toUpper)

/-- `getRiskLevel`: fixed bands ≥8 Critical, ≥6 High, ≥4 Medium, ≥2 Low,
else Minimal. -/
def getRiskLevel (score : ℤ) : String :=
  if 8 ≤ score then "Critical"
  else if 6 ≤ score then "High"
  else if 4 ≤ score then "Medium"
  else if 2 ≤ score then "Low"
  else "Minimal"

/-- `getRiskEmoji`: lookup with `'⚪'` fallback. -/
def getRiskEmoji (level : String) : String :=
  if level = "Critical" then "🔴"
  else if level = "High" then "🟠"
  else if level = "Medium" then "🟡"
  else if level = "Low" then "🟢"
  else if level = "Minimal" then "⚪"
  else "⚪"

/-- `getSeverityEmoji`: lookup with `'⚪'` fallback. -/
def getSeverityEmoji (severity : String) : String :=
  if severity = "critical" then "🔴"
  else if severity = "high" then "🟠"
  else if severity = "medium" then "🟡"
  else if severity = "low" then "🟢"
  else "⚪"

/-- Append `x` to the entry for `key`, creating the entry at the end on
first occurrence — the insertion-order grouping produced by the
`reduce`-into-object idiom (JS objects preserve insertion order for the
non-numeric keys used here, and `Object.entries` reads them back in that
order). -/
def addToGroup {β : Type} (groups : List (String × List β)) (key : String)
    (x : β) : List (String × List β) :=
  match groups with
  | [] => [(key, [x])]
  | (k, xs) :: rest =>
    if k = key then (k, xs ++ [x]) :: rest
    else (k, xs) :: addToGroup rest key x

/-- `groupIssuesByType` (`issue.type || 'unknown'`). -/
def groupIssuesByType (issues : List Issue) : List (String × List Issue) :=
  issues.foldl
    (fun groups issue =>
      addToGroup groups (if issue.type = "" then "unknown" else issue.type) issue)
    []

/-- `groupSuggestionsByPriority` (`suggestion.priority || 'low'`). -/
def groupSuggestionsByPriority (suggestions : List Sugg) :
    List (String × List Sugg) :=
  suggestions.foldl
    (fun groups s => addToGroup groups (jsOrStr s.priority "low") s)
    []

/-- `` `${issue.line ? ` (Line ${issue.line})` : ''}` ``. -/
def issueLineSuffix (line : Nat) : String :=
  if line ≠ 0 then " (Line " ++ toString line ++ ")" else ""

/-- `formatMarkdownHeader` — note the call-time `Review Date` line. -/
def formatMarkdownHeader (data : ReportData) (now : Timestamp) : String :=
  "# 🔍 AI Code Review Report\n\n**Repository:** "
  ++ jsOrStr data.repository "Unknown"
  ++ "\n**Pull Request:** #" ++ jsOrNum data.pullRequestId "Unknown"
  ++ "\n**Branch:** " ++ jsOrStr data.sourceBranch "Unknown"
  ++ " → " ++ jsOrStr data.targetBranch "Unknown"
  ++ "\n**Author:** " ++ jsOrStr data.author "Unknown"
  ++ "\n**Review Date:** " ++ isoDatePart now
  ++ "\n\n---"

/-- `formatMarkdownSummary`. -/
def formatMarkdownSummary (data : ReportData) : String :=
  let riskLevel := getRiskLevel (data.riskScore.getD 0)
  let riskEmoji := getRiskEmoji riskLevel
  "## 📊 Executive Summary\n\n**Overall Risk Score:** "
  ++ riskEmoji ++ " " ++ intDisp data.riskScore ++ "/10 (" ++ riskLevel ++ ")"
  ++ "\n**Recommendation:** " ++ jsOrStr data.recommendation "Review required"
  ++ "\n\n### 📈 Change Statistics\n- **Files Changed:** " ++ intDisp data.filesChanged
  ++ "\n- **Lines Added:** +" ++ intDisp data.linesAdded
  ++ "\n- **Lines Removed:** -" ++ intDisp data.linesRemoved
  ++ "\n- **Languages:** " ++ languagesDisplay data.languages
  ++ "\n\n### 🎯 Issue Summary\n- **Critical Issues:** "
  ++ toString (data.criticalIssues.getD []).length
  ++ "\n- **Security Concerns:** " ++ toString (data.security.getD []).length
  ++ "\n- **Performance Issues:** " ++ toString (data.performance.getD []).length
  ++ "\n- **Quality Issues:** " ++ toString (data.quality.getD []).length

/-- `formatMarkdownCriticalIssues`. -/
def formatMarkdownCriticalIssues (issues : List Issue) : String :=
  "## ⚠️ Critical Issues\n\n"
  ++ String.join (issues.map fun issue =>
    "### " ++ getSeverityEmoji issue.severity ++ " " ++ issue.type
    ++ "\n\n**File:** `" ++ issue.file ++ "`" ++ issueLineSuffix issue.line
    ++ "\n**Severity:** " ++ issue.severity
    ++ "\n\n" ++ issue.description
    ++ "\n\n"
    ++ (if issue.suggestion ≠ "" then "**Suggested Fix:** " ++ issue.suggestion
        else "")
    ++ "\n\n"
    ++ (if issue.content ≠ "" then "```\n" ++ issue.content ++ "\n```" else "")
    ++ "\n\n---\n\n")

/-- The per-issue bullet of the security section. -/
def securityIssueItem (issue : Issue) : String :=
  "- **" ++ issue.file ++ "**" ++ issueLineSuffix issue.line
  ++ ": " ++ issue.description ++ "\n"
  ++ (if issue.suggestion ≠ "" then
        "  - *Suggestion: " ++ issue.suggestion ++ "*\n"
      else "")

/-- `formatMarkdownSecurityAnalysis`: grouped by type in first-occurrence
order. -/
def formatMarkdownSecurityAnalysis (securityIssues : List Issue) : String :=
  "## 🔒 Security Analysis\n\n"
  ++ String.join ((groupIssuesByType securityIssues).map fun g =>
    "### " ++ jsToUpper (replaceUnderscores g.1) ++ "\n\n"
    ++ String.join (g.2.map securityIssueItem) ++ "\n")

/-- The per-issue bullet of the performance section. -/
def performanceIssueItem (issue : Issue) : String :=
  "- **" ++ issue.file ++ "**" ++ issueLineSuffix issue.line
  ++ ": " ++ issue.description ++ "\n"
  ++ (if issue.suggestion ≠ "" then
        "  - *Optimization: " ++ issue.suggestion ++ "*\n"
      else "")

/-- `formatMarkdownPerformanceAnalysis`. -/
def formatMarkdownPerformanceAnalysis (performanceIssues : List Issue) : String :=
  "## ⚡ Performance Analysis\n\n"
  ++ String.join ((groupIssuesByType performanceIssues).map fun g =>
    "### " ++ jsToUpper (replaceUnderscores g.1) ++ "\n\n"
    ++ String.join (g.2.map performanceIssueItem) ++ "\n")

/-- The per-issue bullet of the quality section. -/
def qualityIssueItem (issue : Issue) : String :=
  "- **" ++ issue.file ++ "**" ++ issueLineSuffix issue.line
  ++ ": " ++ issue.description ++ "\n"
  ++ (if issue.suggestion ≠ "" then
        "  - *Improvement: " ++ issue.suggestion ++ "*\n"
      else "")

/-- `formatMarkdownQualityAnalysis`. -/
def formatMarkdownQualityAnalysis (qualityIssues : List Issue) : String :=
  "## 📝 Code Quality Analysis\n\n"
  ++ String.join ((groupIssuesByType qualityIssues).map fun g =>
    "### " ++ jsToUpper (replaceUnderscores g.1) ++ "\n\n"
    ++ String.join (g.2.map qualityIssueItem) ++ "\n")

/-- Find the group for a priority (`groupedSuggestions[priority]`). -/
def lookupGroup {β : Type} (groups : List (String × List β)) (key : String) :
    Option (List β) :=
  (groups.find? (fun g => g.1 = key)).map Prod.snd

/-- `formatMarkdownSuggestions`: explicit high → medium → low order over
the priority groups. -/
def formatMarkdownSuggestions (suggestions : List Sugg) : String :=
  let grouped := groupSuggestionsByPriority suggestions
  "## 💡 Recommendations\n\n"
  ++ String.join (["high", "medium", "low"].map fun priority =>
    match lookupGroup grouped priority with
    | some l =>
      if 0 < l.length then
        "### " ++ jsToUpper priority ++ " Priority\n\n"
        ++ String.join (l.map fun s =>
          "- **" ++ replaceUnderscores s.type ++ "**: " ++ s.description ++ "\n"
          ++ (match s.action with
              | some a => if a ≠ "" then "  - *Action: " ++ a ++ "*\n" else ""
              | none => ""))
        ++ "\n"
      else ""
    | none => "")

/-- `${metrics.x || 'N/A'}`. -/
def metricDisp (v : Option ℤ) : String :=
  match v with
  | some n => if n = 0 then "N/A" else toString n
  | none => "N/A"

/-- `getComplexityStatus` (`!complexity` → Unknown). -/
def getComplexityStatus (complexity : Option ℤ) : String :=
  match complexity with
  | none => "Unknown"
  | some n =>
    if n = 0 then "Unknown"
    else if 15 < n then "❌ High"
    else if 10 < n then "⚠️ Medium"
    else "✅ Good"

/-- `getCoverageStatus`. -/
def getCoverageStatus (coverage : Option ℤ) : String :=
  match coverage with
  | none => "Unknown"
  | some n =>
    if n = 0 then "Unknown"
    else if n < 60 then "❌ Low"
    else if n < 80 then "⚠️ Medium"
    else "✅ Good"

/-- `getDuplicationStatus`. -/
def getDuplicationStatus (duplication : Option ℤ) : String :=
  match duplication with
  | none => "Unknown"
  | some n =>
    if n = 0 then "Unknown"
    else if 10 < n then "❌ High"
    else if 5 < n then "⚠️ Medium"
    else "✅ Good"

/-- `getDebtStatus`. -/
def getDebtStatus (debt : Option ℤ) : String :=
  match debt with
  | none => "Unknown"
  | some n =>
    if n = 0 then "Unknown"
    else if 5 < n then "❌ High"
    else "✅ Low"

/-- `getMaintainabilityStatus`. -/
def getMaintainabilityStatus (maintainability : Option ℤ) : String :=
  match maintainability with
  | none => "Unknown"
  | some n =>
    if n = 0 then "Unknown"
    else if n < 60 then "❌ Poor"
    else if n < 80 then "⚠️ Fair"
    else "✅ Good"

/-- `formatMarkdownMetrics`. -/
def formatMarkdownMetrics (metrics : Metrics) : String :=
  "## 📊 Code Metrics\n\n| Metric | Value | Status |\n|--------|-------|--------|\n| Cyclomatic Complexity | "
  ++ metricDisp metrics.complexity ++ " | " ++ getComplexityStatus metrics.complexity
  ++ " |\n| Test Coverage | " ++ metricDisp metrics.testCoverage ++ "% | "
  ++ getCoverageStatus metrics.testCoverage
  ++ " |\n| Code Duplication | " ++ metricDisp metrics.duplication ++ "% | "
  ++ getDuplicationStatus metrics.duplication
  ++ " |\n| Technical Debt | " ++ metricDisp metrics.technicalDebt ++ " | "
  ++ getDebtStatus metrics.technicalDebt
  ++ " |\n| Maintainability Index | " ++ metricDisp metrics.maintainability ++ " | "
  ++ getMaintainabilityStatus metrics.maintainability ++ " |"

/-- `formatMarkdownFooter` — the documented call-time footer. -/
def formatMarkdownFooter (data : ReportData) (now : Timestamp) : String :=
  "---\n\n*This report was generated by the AI Code Review System v1.0*\n*Analysis completed at: "
  ++ now.iso ++ "*\n*Review ID: " ++ jsOrStr data.reviewId "Unknown" ++ "*"

/-- `formatMarkdownReport`: the ordered section pushes, joined with
`'\n\n'`. -/
def formatMarkdownReport (data : ReportData) (now : Timestamp) : String :=
  let sections : List String :=
    [formatMarkdownHeader data now]
    ++ [formatMarkdownSummary data]
    ++ (match data.criticalIssues with
        | some l => if 0 < l.length then [formatMarkdownCriticalIssues l] else []
        | none => [])
    ++ (match data.security with
        | some l => if 0 < l.length then [formatMarkdownSecurityAnalysis l] else []
        | none => [])
    ++ (match data.performance with
        | some l => if 0 < l.length then [formatMarkdownPerformanceAnalysis l] else []
        | none => [])
    ++ (match data.quality with
        | some l => if 0 < l.length then [formatMarkdownQualityAnalysis l] else []
        | none => [])
    ++ (match data.suggestions with
        | some l => if 0 < l.length then [formatMarkdownSuggestions l] else []
        | none => [])
    ++ (match data.metrics with
        | some m => [formatMarkdownMetrics m]
        | none => [])
    ++ [formatMarkdownFooter data now]
  jsJoin "\n\n" sections

/-! ### JSON format

`formatJsonReport` builds a plain object and serializes it with
`JSON.stringify(value, null, 2)`.  The JSON tree and the 2-space
pretty-printer are embedded below; object properties with `undefined`
values are omitted, as `JSON.stringify` does. -/

/-- A JSON value as produced by the report builder. -/
inductive Json where
  | str (s : String) : Json
  | num (n : ℤ) : Json
  | arr (xs : List Json) : Json
  | obj (fields : List (String × Json)) : Json
deriving Repr

/-- A hex digit as emitted in `\uXXXX` escapes (lowercase). -/
def hexDigit (n : Nat) : Char :=
  if n < 10 then Char.ofNat (48 + n) else Char.ofNat (87 + n)

/-- Four-digit hex rendering for control-character escapes. -/
def hex4 (n : Nat) : String :=
  String.mk [hexDigit (n / 4096 % 16), hexDigit (n / 256 % 16),
             hexDigit (n / 16 % 16), hexDigit (n % 16)]

/-- `JSON.stringify` string-character escaping. -/
def jsonEscapeChar (c : Char) : String :=
  if c = '"' then "\\\""
  else if c = '\\' then "\\\\"
  else if c = '\n' then "\\n"
  else if c = '\t' then "\\t"
  else if c = '\r' then "\\r"
  else if c = '\x08' then "\\b"
  else if c = '\x0c' then "\\f"
  else if c.toNat < 32 then "\\u" ++ hex4 c.toNat
  else String.mk [c]

/-- `JSON.stringify` string escaping. -/
def jsonEscape (s : String) : String := String.join (s.data.map jsonEscapeChar)

/-- `n` spaces of indentation. -/
def spaces (n : Nat) : String := String.mk (List.replicate n ' ')

/-- `JSON.stringify(·, null, 2)` at indentation `ind`.  `fuel` bounds the
tree depth (the report document has depth at most 4; `formatJsonReport`
passes 8), making the recursion structural. -/
def renderJson : Nat → Nat → Json → String
  | 0, _, _ => ""
  | fuel + 1, ind, j =>
    match j with
    | .str s => "\"" ++ jsonEscape s ++ "\""
    | .num n => toString n
    | .arr [] => "[]"
    | .arr xs =>
      "[\n"
      ++ jsJoin ",\n" (xs.map fun x => spaces (ind + 2) ++ renderJson fuel (ind + 2) x)
      ++ "\n" ++ spaces ind ++ "]"
    | .obj [] => "\x7b\x7d"
    | .obj fs =>
      "\x7b\n"
      ++ jsJoin ",\n" (fs.map fun f =>
        spaces (ind + 2) ++ "\"" ++ jsonEscape f.1 ++ "\": "
        ++ renderJson fuel (ind + 2) f.2)
      ++ "\n" ++ spaces ind ++ "\x7d"

/-- An object property with a string value, omitted when `undefined`. -/
def optStrField (k : String) (v : Option String) : List (String × Json) :=
  match v with
  | some x => [(k, .str x)]
  | none => []

/-- An object property with a numeric value, omitted when `undefined`. -/
def optIntField (k : String) (v : Option ℤ) : List (String × Json) :=
  match v with
  | some n => [(k, .num n)]
  | none => []

/-- An `Issue` as serialized by `JSON.stringify` (properties in creation
order). -/
def issueToJson (i : Issue) : Json :=
  .obj [("type", .str i.type), ("severity", .str i.severity),
        ("description", .str i.description), ("line", .num i.line),
        ("content", .str i.content), ("file", .str i.file),
        ("suggestion", .str i.suggestion)]

/-- A `Sugg` as serialized by `JSON.stringify`: only the properties its
object literal carries, in creation order (both literal shapes embed into
the field order below). -/
def suggToJson (s : Sugg) : Json :=
  .obj ([("type", Json.str s.type)]
    ++ optStrField "priority" s.priority
    ++ optStrField "severity" s.severity
    ++ [("description", Json.str s.description)]
    ++ optStrField "action" s.action
    ++ optStrField "file" s.file
    ++ optStrField "suggestion" s.suggestion)

/-- The `metrics` object as serialized (declared property order). -/
def metricsToJson (m : Metrics) : Json :=
  .obj (optIntField "complexity" m.complexity
    ++ optIntField "testCoverage" m.testCoverage
    ++ optIntField "duplication" m.duplication
    ++ optIntField "technicalDebt" m.technicalDebt
    ++ optIntField "maintainability" m.maintainability)

/-- `formatJsonReport`: metadata (with the call-time `timestamp`),
summary, issues, suggestions, metrics, serialized with indent 2. -/
def formatJsonReport (data : ReportData) (now : Timestamp) : String :=
  renderJson 8 0 (.obj
    (("metadata", Json.obj
        (optStrField "reviewId" data.reviewId
          ++ [("timestamp", Json.str now.iso), ("version", Json.str "1.0.0")]))
      :: [("summary", Json.obj
            (optIntField "riskScore" data.riskScore
              ++ optStrField "recommendation" data.recommendation
              ++ optIntField "filesChanged" data.filesChanged
              ++ optIntField "linesAdded" data.linesAdded
              ++ optIntField "linesRemoved" data.linesRemoved
              ++ (match data.languages with
                  | some ls => [("languages", Json.arr (ls.map Json.str))]
                  | none => []))),
          ("issues", Json.obj
            [("critical", Json.arr ((data.criticalIssues.getD []).map issueToJson)),
             ("security", Json.arr ((data.security.getD []).map issueToJson)),
             ("performance", Json.arr ((data.performance.getD []).map issueToJson)),
             ("quality", Json.arr ((data.quality.getD []).map issueToJson))]),
          ("suggestions", Json.arr ((data.suggestions.getD []).map suggToJson)),
          ("metrics", match data.metrics with
            | some m => metricsToJson m
            | none => Json.obj [])]))

/-- `formatHtmlReport` (literal braces written as escapes). -/
def formatHtmlReport (data : ReportData) (now : Timestamp) : String :=
  "<!DOCTYPE html>\n<html>\n<head>\n    <title>AI Code Review Report</title>\n    <style>\n        body \x7b font-family: Arial, sans-serif; margin: 20px; \x7d\n        .header \x7b background: #f5f5f5; padding: 20px; border-radius: 5px; \x7d\n        .section \x7b margin: 20px 0; \x7d\n        .issue \x7b background: #fff3cd; padding: 10px; margin: 10px 0; border-radius: 3px; \x7d\n        .critical \x7b background: #f8d7da; \x7d\n        .suggestion \x7b background: #d1ecf1; \x7d\n        table \x7b width: 100%; border-collapse: collapse; \x7d\n        th, td \x7b border: 1px solid #ddd; padding: 8px; text-align: left; \x7d\n        th \x7b background-color: #f2f2f2; \x7d\n    </style>\n</head>\n<body>\n    <div class=\"header\">\n        <h1>🔍 AI Code Review Report</h1>\n        <p><strong>Repository:</strong> "
  ++ jsOrStr data.repository "Unknown"
  ++ "</p>\n        <p><strong>Pull Request:</strong> #"
  ++ jsOrNum data.pullRequestId "Unknown"
  ++ "</p>\n        <p><strong>Risk Score:</strong> "
  ++ intDisp data.riskScore
  ++ "/10</p>\n    </div>\n    \n    <div class=\"section\">\n        <h2>Summary</h2>\n        <p>Files Changed: "
  ++ intDisp data.filesChanged
  ++ "</p>\n        <p>Lines Added: +"
  ++ intDisp data.linesAdded
  ++ "</p>\n        <p>Lines Removed: -"
  ++ intDisp data.linesRemoved
  ++ "</p>\n    </div>\n    \n    <!-- Additional sections would be added here -->\n    \n    <footer>\n        <p><em>Generated by AI Code Review System v1.0 at "
  ++ now.iso
  ++ "</em></p>\n    </footer>\n</body>\n</html>"

/-- `'='.repeat(60)` and friends. -/
def repeatChar (c : Char) (n : Nat) : String := String.mk (List.replicate n c)

/-- `formatTextReport`. -/
def formatTextReport (data : ReportData) (now : Timestamp) : String :=
  repeatChar '=' 60 ++ "\n"
  ++ "AI CODE REVIEW REPORT\n"
  ++ repeatChar '=' 60 ++ "\n\n"
  ++ "Repository: " ++ jsOrStr data.repository "Unknown" ++ "\n"
  ++ "Pull Request: #" ++ jsOrNum data.pullRequestId "Unknown" ++ "\n"
  ++ "Risk Score: " ++ intDisp data.riskScore ++ "/10\n\n"
  ++ (match data.criticalIssues with
      | some l =>
        if 0 < l.length then
          "CRITICAL ISSUES:\n" ++ repeatChar '-' 20 ++ "\n"
          ++ String.join (l.map fun issue =>
            "- " ++ issue.type ++ ": " ++ issue.description ++ "\n"
            ++ "  File: " ++ issue.file ++ "\n\n")
        else ""
      | none => "")
  ++ "\n" ++ repeatChar '=' 60 ++ "\n"
  ++ "Generated at: " ++ now.iso ++ "\n"

/-- `formatReport`: dispatch on `format.toLowerCase()`; an unrecognized
selector throws `Unsupported format: ${format}` (modelled as `.error`,
so no partial output is returned). -/
def formatReport (analysisData : ReportData) (format : String) (now : Timestamp) :
    Except String String :=
  let fl := String.mk (format.data.map Char.toLower)
  if fl = "markdown" then .ok (formatMarkdownReport analysisData now)
  else if fl = "json" then .ok (formatJsonReport analysisData now)
  else if fl = "html" then .ok (formatHtmlReport analysisData now)
  else if fl = "text" then .ok (formatTextReport analysisData now)
  else .error ("Unsupported format: " ++ format)

/-! ## C6: where call time enters the formatted output -/

/-- The markdown sections between header and footer; none of them takes
the clock. -/
def markdownMiddleSections (data : ReportData) : List String :=
  [formatMarkdownSummary data]
  ++ (match data.criticalIssues with
      | some l => if 0 < l.length then [formatMarkdownCriticalIssues l] else []
      | none => [])
  ++ (match data.security with
      | some l => if 0 < l.length then [formatMarkdownSecurityAnalysis l] else []
      | none => [])
  ++ (match data.performance with
      | some l => if 0 < l.length then [formatMarkdownPerformanceAnalysis l] else []
      | none => [])
  ++ (match data.quality with
      | some l => if 0 < l.length then [formatMarkdownQualityAnalysis l] else []
      | none => [])
  ++ (match data.suggestions with
      | some l => if 0 < l.length then [formatMarkdownSuggestions l] else []
      | none => [])
  ++ (match data.metrics with
      | some m => [formatMarkdownMetrics m]
      | none => [])

/-- The JSON `metadata` property — the only JSON field carrying the
clock. -/
def jsonMetadataField (data : ReportData) (now : Timestamp) : String × Json :=
  ("metadata", .obj
    (optStrField "reviewId" data.reviewId
      ++ [("timestamp", Json.str now.iso), ("version", Json.str "1.0.0")]))

/-- The remaining JSON properties; none of them takes the clock. -/
def jsonBodyFields (data : ReportData) : List (String × Json) :=
  [("summary", Json.obj
      (optIntField "riskScore" data.riskScore
        ++ optStrField "recommendation" data.recommendation
        ++ optIntField "filesChanged" data.filesChanged
        ++ optIntField "linesAdded" data.linesAdded
        ++ optIntField "linesRemoved" data.linesRemoved
        ++ (match data.languages with
            | some ls => [("languages", Json.arr (ls.map Json.str))]
            | none => []))),
    ("issues", Json.obj
      [("critical", Json.arr ((data.criticalIssues.getD []).map issueToJson)),
       ("security", Json.arr ((data.security.getD []).map issueToJson)),
       ("performance", Json.arr ((data.performance.getD []).map issueToJson)),
       ("quality", Json.arr ((data.quality.getD []).map issueToJson))]),
    ("suggestions", Json.arr ((data.suggestions.getD []).map suggToJson)),
    ("metrics", match data.metrics with
      | some m => metricsToJson m
      | none => Json.obj [])]

/-- An analysis-data object with every property absent. -/
def reportDataEx : ReportData :=
  ⟨none, none, none, none, none, none, none, none, none, none, none,
   none, none, none, none, none, none, none⟩

/-- A first clock reading. -/
def tsEx1 : Timestamp := ⟨"2024-01-02T03:04:05.000Z"⟩

/-- A second, different clock reading. -/
def tsEx2 : Timestamp := ⟨"2025-06-07T08:09:10.000Z"⟩

/-- C6 counterexample: on the same analysis data, two calls at different
clock readings differ OUTSIDE the footer — the markdown header's
`Review Date` line changes, and the JSON `metadata.timestamp` (the first
property of the JSON document, not a footer) changes — so the
call-time-dependent content is not confined to the documented
generated-at footer. -/
theorem c6_header_depends_on_time :
    formatMarkdownHeader reportDataEx tsEx1 ≠ formatMarkdownHeader reportDataEx tsEx2
    ∧ formatJsonReport reportDataEx tsEx1 ≠ formatJsonReport reportDataEx tsEx2 := by
  exact ⟨by decide, by decide⟩

/-- C6 as amended: formatting is a pure function of the analysis data,
the format selector and the clock reading — two calls with the same three
inputs give identical strings — and the call-time-dependent content is
confined to the timestamp-bearing pieces: in markdown the header
(`Review Date`) and the footer (`Analysis completed at`), with every
section in between depending on the data only; in JSON the `metadata`
property, with every other property depending on the data only. -/
theorem c6_time_dependence_amended (data : ReportData) (now : Timestamp) :
    formatMarkdownReport data now
      = jsJoin "\n\n" ([formatMarkdownHeader data now]
          ++ markdownMiddleSections data ++ [formatMarkdownFooter data now])
    ∧ formatJsonReport data now
      = renderJson 8 0 (.obj (jsonMetadataField data now :: jsonBodyFields data))
    ∧ formatReport data "markdown" now = .ok (formatMarkdownReport data now)
    ∧ formatReport data "json" now = .ok (formatJsonReport data now) := by
  refine ⟨?_, rfl, rfl, rfl⟩
  simp only [formatMarkdownReport, markdownMiddleSections, List.append_assoc,
    List.cons_append, List.nil_append]

/-! ## C8: supported and unsupported format selectors -/

/-- C8: `formatReport` succeeds exactly for the selectors whose
lower-casing is `markdown`, `json`, `html` or `text` (plain text); for
every other selector it throws `Unsupported format: ${format}` and
produces no output (the `Except` is an error, carrying no partial
string). -/
theorem c8_formatReport_supported_only (d : ReportData) (t : Timestamp)
    (format : String) :
    ((∃ s, formatReport d format t = .ok s) ↔
      (String.mk (format.data.map Char.toLower) = "markdown"
       ∨ String.mk (format.data.map Char.toLower) = "json"
       ∨ String.mk (format.data.map Char.toLower) = "html"
       ∨ String.mk (format.data.map Char.toLower) = "text"))
    ∧ (¬(String.mk (format.data.map Char.toLower) = "markdown"
        ∨ String.mk (format.data.map Char.toLower) = "json"
        ∨ String.mk (format.data.map Char.toLower) = "html"
        ∨ String.mk (format.data.map Char.toLower) = "text") →
      formatReport d format t = .error ("Unsupported format: " ++ format)) := by
  refine ⟨⟨?_, ?_⟩, ?_⟩
  · rintro ⟨s, hs⟩
    simp only [formatReport] at hs
    split_ifs at hs with h1 h2 h3 h4
    · exact Or.inl h1
    · exact Or.inr (Or.inl h2)
    · exact Or.inr (Or.inr (Or.inl h3))
    · exact Or.inr (Or.inr (Or.inr h4))
  · intro h
    simp only [formatReport]
    split_ifs with h1 h2 h3 h4
    · exact ⟨_, rfl⟩
    · exact ⟨_, rfl⟩
    · exact ⟨_, rfl⟩
    · exact ⟨_, rfl⟩
    · tauto
  · intro h
    simp only [formatReport]
    split_ifs with h1 h2 h3 h4
    · exact absurd (Or.inl h1) h
    · exact absurd (Or.inr (Or.inl h2)) h
    · exact absurd (Or.inr (Or.inr (Or.inl h3))) h
    · exact absurd (Or.inr (Or.inr (Or.inr h4))) h
    · rfl

/-- Witness for C8: the selector `yaml` fails with the unsupported-format
error, while `JSON` (case-insensitively) succeeds. -/
theorem c8_formatReport_supported_only_witness :
    formatReport reportDataEx "yaml" tsEx1 = .error ("Unsupported format: " ++ "yaml")
    ∧ (∃ s, formatReport reportDataEx "JSON" tsEx1 = .ok s) :=
  ⟨(c8_formatReport_supported_only reportDataEx tsEx1 "yaml").2 (by decide),
   (c8_formatReport_supported_only reportDataEx tsEx1 "JSON").1.mpr (by decide)⟩

end Flow
